import Mathlib

/-!
A shallow embedding of the `threadpool` crate (`src/lib.rs`): a pool of
worker threads with five shared atomic counters (`active_count`,
`spawned_count`, `min_count`, `max_count`, `panic_count`), a FIFO job
queue, a per-worker `Sentinel` crash-recovery guard, and the public
operations `new` / `new_dynamic` / `execute` / `set_num_threads` plus
counter queries.

Counters are modelled as `Nat` (the source uses `usize`; every claim here
is about executions in which the counters stay far below `2^64`, so
wrap-around is not modelled). `fetch_sub` keeps the source's
previous-value semantics: the compare in `Sentinel::drop` is against the
value *before* the decrement, exactly as `fetch_sub(1, ...) == 1` is in
the source. Spawning an OS thread is modelled by appending the spawned
worker's configuration to a `spawnLog`; the configuration (`WorkerCfg`)
stands for the thread name together with the identities of the `Arc`s of
the shared state and the job queue that the source clones into each
worker.
-/

namespace Threadpool

/-- The configuration a worker carries: the optional thread name and the
identities of the shared-state and job-queue `Arc`s it references
(`spawn_in_pool`'s arguments `name`, `jobs`, `thread_counter`, ...). -/
structure WorkerCfg where
  name : Option String
  sharedId : Nat
  queueId : Nat
deriving DecidableEq, Repr

/-- The five shared counters of the pool, plus `spawnLog`: the list of
worker configurations passed to `spawn_in_pool`, in call order. A call of
`spawn_in_pool` appends one entry (one OS thread is created). -/
structure PoolState where
  active_count : Nat
  spawned_count : Nat
  min_count : Nat
  max_count : Nat
  panic_count : Nat
  spawnLog : List WorkerCfg
deriving DecidableEq, Repr

/-- A job, reduced to what the pool observes of it: an identity and
whether its invocation terminates abnormally (panics) instead of
returning. -/
structure Job where
  id : Nat
  panics : Bool
deriving DecidableEq, Repr

/-- The `Sentinel` crash-recovery guard: the configuration it would hand
to a replacement worker, and the `active` flag that `cancel` clears. -/
structure Sentinel where
  cfg : WorkerCfg
  active : Bool
deriving DecidableEq, Repr

/-- `Sentinel::cancel`: disarm the guard (`self.active = false`). -/
def Sentinel.cancel (snt : Sentinel) : Sentinel :=
  { snt with active := false }

/-- `spawn_in_pool`: create one worker OS thread carrying `cfg`
(the name and clones of the shared `Arc`s). The counters are NOT touched
here; every caller does `spawned_count.fetch_add(1)` itself first. -/
def spawn_in_pool (cfg : WorkerCfg) (s : PoolState) : PoolState :=
  { s with spawnLog := s.spawnLog ++ [cfg] }

/-- `impl Drop for Sentinel` (src/lib.rs:68-88). If still armed:
when the thread is panicking, `panic_count.fetch_add(1)`; then
`thread_counter.fetch_sub(1)` (the `active` counter), and if that
fetch_sub returned 1 (the decrement brought `active` to zero) and
`spawned_count <= min_count`, do `spawned_count.fetch_add(1)` and spawn a
replacement via `spawn_in_pool` with the same configuration. Note the
source never decrements `spawned_count` on this path. -/
def Sentinel.drop (isPanicking : Bool) (snt : Sentinel) (s : PoolState) : PoolState :=
  if snt.active then
    let s1 := if isPanicking then { s with panic_count := s.panic_count + 1 } else s
    let prev := s1.active_count
    let s2 := { s1 with active_count := prev - 1 }
    if prev = 1 ∧ s2.spawned_count ≤ s2.min_count then
      spawn_in_pool snt.cfg { s2 with spawned_count := s2.spawned_count + 1 }
    else
      s2
  else
    s

/-- The source's `for _ in 0..n { spawned_count.fetch_add(1); spawn_in_pool(...) }`
pattern, shared by `new_pool` and `set_num_threads`. -/
def spawnLoop (cfg : WorkerCfg) : Nat → PoolState → PoolState
  | 0, s => s
  | n + 1, s =>
      spawnLoop cfg n (spawn_in_pool cfg { s with spawned_count := s.spawned_count + 1 })

/-- The error taxonomy of the spec: `assert!` failures at construction and
resize surface as `InvalidConfiguration`. -/
inductive PoolError where
  | invalidConfiguration
deriving DecidableEq, Repr

/-- `ThreadPool::new_pool` (src/lib.rs:246-285): assert the three numeric
preconditions, initialise the counters (`min := num_initial_threads`,
`max := num_threads`, others 0) and spawn the initial workers. -/
def new_pool (cfg : WorkerCfg) (num_threads num_initial_threads : Nat) :
    Except PoolError PoolState :=
  if 1 ≤ num_threads ∧ 1 ≤ num_initial_threads ∧ num_initial_threads ≤ num_threads then
    Except.ok (spawnLoop cfg num_initial_threads
      { active_count := 0, spawned_count := 0,
        min_count := num_initial_threads, max_count := num_threads,
        panic_count := 0, spawnLog := [] })
  else
    Except.error PoolError.invalidConfiguration

/-- `ThreadPool::new`: a fixed pool, `new_pool(name, n, n)`. -/
def new (cfg : WorkerCfg) (num_threads : Nat) : Except PoolError PoolState :=
  new_pool cfg num_threads num_threads

/-- `ThreadPool::new_dynamic`: `new_pool(name, max, initial)`. -/
def new_dynamic (cfg : WorkerCfg) (num_threads num_initial_threads : Nat) :
    Except PoolError PoolState :=
  new_pool cfg num_threads num_initial_threads

/-- `Sender::send` on the job channel: succeeds exactly when the receive
side still exists, appending the job to the FIFO queue. The pool handle
itself owns `job_receiver`, so the receiver is alive whenever any handle
is alive. -/
def send (receiverAlive : Bool) (q : List Job) (j : Job) : Option (List Job) :=
  if receiverAlive then some (q ++ [j]) else none

/-- `ThreadPool::execute` (src/lib.rs:288-304): if
`spawned_count < max_count`, `spawned_count.fetch_add(1)` and spawn one
extra worker; then send the job. `none` models the `unwrap` on a closed
channel (impossible while a handle is alive). -/
def execute (cfg : WorkerCfg) (receiverAlive : Bool) (s : PoolState)
    (q : List Job) (j : Job) : Option (PoolState × List Job) :=
  let s' :=
    if s.spawned_count < s.max_count then
      spawn_in_pool cfg { s with spawned_count := s.spawned_count + 1 }
    else
      s
  match send receiverAlive q j with
  | some q' => some (s', q')
  | none => none

/-- `ThreadPool::set_num_threads` (src/lib.rs:341-357): assert
`num_threads >= 1`, swap `max_count` to `num_threads`, and if the new
value exceeds the old one spawn the difference. `min_count` is never
touched and no check against it is made. -/
def set_num_threads (cfg : WorkerCfg) (num_threads : Nat) (s : PoolState) :
    Except PoolError PoolState :=
  if 1 ≤ num_threads then
    let current_max := s.max_count
    let s1 := { s with max_count := num_threads }
    if current_max < num_threads then
      Except.ok (spawnLoop cfg (num_threads - current_max) s1)
    else
      Except.ok s1
  else
    Except.error PoolError.invalidConfiguration

/-- `ThreadPool::active_count` query: an atomic load. -/
def active_count (s : PoolState) : Nat := s.active_count

/-- `ThreadPool::spawned_count` query: an atomic load. -/
def spawned_count (s : PoolState) : Nat := s.spawned_count

/-- `ThreadPool::min_count` query: an atomic load. -/
def min_count (s : PoolState) : Nat := s.min_count

/-- `ThreadPool::max_count` query: an atomic load. -/
def max_count (s : PoolState) : Nat := s.max_count

/-- `ThreadPool::panic_count` query: an atomic load. -/
def panic_count (s : PoolState) : Nat := s.panic_count

/-- The outcome of one iteration of the worker run-loop in
`spawn_in_pool`'s thread body (src/lib.rs:382-419), including — when the
loop is left — the epilogue `spawned_count.fetch_sub(1); sentinel.cancel()`. -/
inductive IterOutcome where
  | continued (s : PoolState) (q : List Job)
  | exited (snt : Sentinel) (s : PoolState) (q : List Job)
  | panicked (s : PoolState) (q : List Job)
  | blocked
deriving DecidableEq, Repr

/-- The worker-thread epilogue after the run-loop breaks
(src/lib.rs:418-419): `spawned_count.fetch_sub(1)`, then
`sentinel.cancel()` — after which the now-disarmed sentinel is dropped,
a no-op. -/
def workerExit (snt : Sentinel) (s : PoolState) : Sentinel × PoolState :=
  let s1 := { s with spawned_count := s.spawned_count - 1 }
  let snt1 := Sentinel.cancel snt
  (snt1, Sentinel.drop false snt1 s1)

/-- One iteration of the worker run-loop (src/lib.rs:382-419), for a
worker whose sentinel is armed and carries `cfg`. Loads
`thread_counter` (`active_count`), `min_count` and `max_count` at the
top; if `active_count < max_count`, dequeues (`recv`): a job `j` runs as
`active += 1; j(); active -= 1` followed by the opportunistic-shrink
check against the top-of-loop `min`/`max` values; a panic in `j` unwinds
through the armed sentinel instead. An empty closed queue, the capacity
check failing, or the shrink check firing all lead to the epilogue
`workerExit`. An empty open queue blocks in `recv`. -/
def workerIteration (cfg : WorkerCfg) (s : PoolState) (q : List Job)
    (closed : Bool) : IterOutcome :=
  let snt : Sentinel := { cfg := cfg, active := true }
  let thread_counter_val := s.active_count
  let min_val := s.min_count
  let max_val := s.max_count
  if thread_counter_val < max_val then
    match q with
    | j :: rest =>
        let s1 := { s with active_count := s.active_count + 1 }
        if j.panics then
          IterOutcome.panicked (Sentinel.drop true snt s1) rest
        else
          let s2 := { s1 with active_count := s1.active_count - 1 }
          if min_val ≠ max_val ∧ s2.active_count = 0 ∧ min_val < s2.spawned_count then
            let (snt', s3) := workerExit snt s2
            IterOutcome.exited snt' s3 rest
          else
            IterOutcome.continued s2 rest
    | [] =>
        if closed then
          let (snt', s3) := workerExit snt s
          IterOutcome.exited snt' s3 q
        else
          IterOutcome.blocked
  else
    let (snt', s3) := workerExit snt s
    IterOutcome.exited snt' s3 q

/-- A fixed worker configuration used for concrete evaluations. -/
def cfg0 : WorkerCfg := { name := some "worker", sharedId := 0, queueId := 0 }

/-- A pool state with one job mid-execution, at the spawned floor:
dropping an armed sentinel here triggers the respawn branch. -/
def sC1 : PoolState :=
  { active_count := 1, spawned_count := 2, min_count := 2, max_count := 4,
    panic_count := 0, spawnLog := [] }

/-- The state produced by `new(4)`: a fixed pool of four workers. -/
def sInit4 : PoolState :=
  { active_count := 0, spawned_count := 4, min_count := 4, max_count := 4,
    panic_count := 0, spawnLog := [cfg0, cfg0, cfg0, cfg0] }

/-- The state produced by `set_num_threads(1)` on `sInit4`. -/
def sShrunk : PoolState := { sInit4 with max_count := 1 }

/-- An idle dynamic-pool state above its floor. -/
def sDyn : PoolState :=
  { active_count := 0, spawned_count := 2, min_count := 1, max_count := 3,
    panic_count := 0, spawnLog := [] }

/-- An idle fixed-pool state (`min = max`). -/
def sFix : PoolState :=
  { active_count := 0, spawned_count := 2, min_count := 2, max_count := 2,
    panic_count := 0, spawnLog := [] }

/-- A state whose `active_count` has reached `max_count`. -/
def sBusy : PoolState :=
  { active_count := 2, spawned_count := 2, min_count := 1, max_count := 2,
    panic_count := 0, spawnLog := [] }

/-- A job that returns normally. -/
def j0 : Job := { id := 0, panics := false }

/-- A job whose invocation terminates abnormally. -/
def jP : Job := { id := 1, panics := true }

/-- States of the shared counters reachable through the public handle
operations alone: construction, `execute` (with the receiver alive, as it
is whenever a handle exists) and `set_num_threads`. Queries do not
mutate. -/
inductive Reachable (cfg : WorkerCfg) : PoolState → Prop
  | init (nt ni : Nat) (s : PoolState) :
      new_pool cfg nt ni = Except.ok s → Reachable cfg s
  | exec (s : PoolState) (q : List Job) (j : Job) (s' : PoolState) (q' : List Job) :
      Reachable cfg s → execute cfg true s q j = some (s', q') → Reachable cfg s'
  | resize (s : PoolState) (n : Nat) (s' : PoolState) :
      Reachable cfg s → set_num_threads cfg n s = Except.ok s' → Reachable cfg s'

/-- Closed form of the shared spawn loop: `k` iterations add `k` to
`spawned_count` and append `k` copies of the configuration to the spawn
log, leaving every other counter unchanged. -/
theorem spawnLoop_spec (cfg : WorkerCfg) (k : Nat) (s : PoolState) :
    spawnLoop cfg k s =
      { s with spawned_count := s.spawned_count + k,
               spawnLog := s.spawnLog ++ List.replicate k cfg } := by
  induction k generalizing s with
  | zero => simp [spawnLoop]
  | succ n ih =>
      simp [spawnLoop, spawn_in_pool, ih, List.replicate_succ]
      omega

/-- Closed form of `execute` with the receiver alive: one extra worker is
spawned exactly when `spawned_count < max_count`, and the job is appended
to the queue. -/
theorem execute_eq (cfg : WorkerCfg) (s : PoolState) (q : List Job) (j : Job) :
    execute cfg true s q j =
      some (if s.spawned_count < s.max_count then
              { s with spawned_count := s.spawned_count + 1,
                       spawnLog := s.spawnLog ++ [cfg] }
            else s, q ++ [j]) := by
  by_cases hs : s.spawned_count < s.max_count <;>
    simp [execute, send, spawn_in_pool, hs]

/-- Closed form of a successful `set_num_threads`: `max_count` is swapped
to the new value and `num_threads - current_max` workers are spawned
(none when the new maximum does not exceed the old). -/
theorem set_num_threads_eq (cfg : WorkerCfg) (n : Nat) (s : PoolState)
    (h : 1 ≤ n) :
    set_num_threads cfg n s =
      Except.ok { s with max_count := n,
                         spawned_count := s.spawned_count + (n - s.max_count),
                         spawnLog := s.spawnLog ++ List.replicate (n - s.max_count) cfg } := by
  unfold set_num_threads
  rw [if_pos h]
  by_cases hlt : s.max_count < n
  · rw [if_pos hlt, spawnLoop_spec]
  · rw [if_neg hlt]
    have h0 : n - s.max_count = 0 := Nat.sub_eq_zero_of_le (Nat.le_of_not_lt hlt)
    simp [h0]

/-- Closed form of a successful construction: counters initialised with
`min = initial`, `max = maximum`, and `initial` workers spawned. -/
theorem new_pool_eq (cfg : WorkerCfg) (nt ni : Nat)
    (h1 : 1 ≤ nt) (h2 : 1 ≤ ni) (h3 : ni ≤ nt) :
    new_pool cfg nt ni =
      Except.ok { active_count := 0, spawned_count := ni, min_count := ni,
                  max_count := nt, panic_count := 0,
                  spawnLog := List.replicate ni cfg } := by
  unfold new_pool
  rw [if_pos ⟨h1, h2, h3⟩, spawnLoop_spec]
  simp

/-- C1: the claim says the armed sentinel's destruction decrements
`spawned` before any replacement is spawned. Counterexample: at `sC1`
(one active job, `spawned = 2` at the floor `min = 2`) the armed
sentinel's drop spawns a replacement, yet `spawned_count` goes up from 2
to 3 — it is never decremented on the abnormal path. -/
theorem sentinel_drop_no_spawned_decrement_cex :
    (Sentinel.drop true { cfg := cfg0, active := true } sC1).spawnLog = [cfg0] ∧
    (Sentinel.drop true { cfg := cfg0, active := true } sC1).spawned_count = 3 ∧
    sC1.spawned_count = 2 :=
  ⟨rfl, rfl, rfl⟩

/-- C1 (amended): when an armed sentinel is destroyed while the thread is
panicking, it (1) increments `panic_count`, (2) decrements `active_count`
only — `spawned_count` is NOT decremented, because the decrement at the
end of `spawn_in_pool`'s thread body is skipped by stack unwinding —
and (3) makes the conditional respawn decision, which on firing
increments `spawned_count` from its undecremented value and logs one
replacement spawn with the sentinel's configuration. -/
theorem sentinel_drop_armed_effects (snt : Sentinel) (s : PoolState)
    (h : snt.active = true) :
    (Sentinel.drop true snt s).panic_count = s.panic_count + 1 ∧
    (Sentinel.drop true snt s).active_count = s.active_count - 1 ∧
    (Sentinel.drop true snt s).min_count = s.min_count ∧
    (Sentinel.drop true snt s).max_count = s.max_count ∧
    ((s.active_count = 1 ∧ s.spawned_count ≤ s.min_count) →
      (Sentinel.drop true snt s).spawned_count = s.spawned_count + 1 ∧
      (Sentinel.drop true snt s).spawnLog = s.spawnLog ++ [snt.cfg]) ∧
    (¬ (s.active_count = 1 ∧ s.spawned_count ≤ s.min_count) →
      (Sentinel.drop true snt s).spawned_count = s.spawned_count ∧
      (Sentinel.drop true snt s).spawnLog = s.spawnLog) := by
  by_cases hc : s.active_count = 1 ∧ s.spawned_count ≤ s.min_count
  · simp [Sentinel.drop, h, hc, spawn_in_pool]
  · simp [Sentinel.drop, h, hc, spawn_in_pool]

/-- C1 (amended) at the concrete state `sC1`: the respawning case of the
armed-drop characterisation. -/
theorem sentinel_drop_armed_effects_witness :
    (Sentinel.drop true { cfg := cfg0, active := true } sC1).panic_count = sC1.panic_count + 1 ∧
    (Sentinel.drop true { cfg := cfg0, active := true } sC1).active_count = sC1.active_count - 1 ∧
    (Sentinel.drop true { cfg := cfg0, active := true } sC1).min_count = sC1.min_count ∧
    (Sentinel.drop true { cfg := cfg0, active := true } sC1).max_count = sC1.max_count ∧
    ((sC1.active_count = 1 ∧ sC1.spawned_count ≤ sC1.min_count) →
      (Sentinel.drop true { cfg := cfg0, active := true } sC1).spawned_count = sC1.spawned_count + 1 ∧
      (Sentinel.drop true { cfg := cfg0, active := true } sC1).spawnLog = sC1.spawnLog ++ [cfg0]) ∧
    (¬ (sC1.active_count = 1 ∧ sC1.spawned_count ≤ sC1.min_count) →
      (Sentinel.drop true { cfg := cfg0, active := true } sC1).spawned_count = sC1.spawned_count ∧
      (Sentinel.drop true { cfg := cfg0, active := true } sC1).spawnLog = sC1.spawnLog) :=
  sentinel_drop_armed_effects { cfg := cfg0, active := true } sC1 rfl

/-- C3: on abnormal termination (armed sentinel dropped while panicking)
a replacement worker is spawned if and only if the decrement of `active`
brought it to zero (the pre-drop `active_count` was 1) and
`spawned_count ≤ min_count` at that instant; the replacement increments
`spawned_count` and carries the sentinel's own configuration — the same
name and the same shared-state and job-queue references. -/
theorem sentinel_respawn_iff (snt : Sentinel) (s : PoolState)
    (h : snt.active = true) :
    ((Sentinel.drop true snt s).spawnLog ≠ s.spawnLog ↔
      (s.active_count = 1 ∧ s.spawned_count ≤ s.min_count)) ∧
    ((s.active_count = 1 ∧ s.spawned_count ≤ s.min_count) →
      (Sentinel.drop true snt s).spawnLog = s.spawnLog ++ [snt.cfg] ∧
      (Sentinel.drop true snt s).spawned_count = s.spawned_count + 1) := by
  by_cases hc : s.active_count = 1 ∧ s.spawned_count ≤ s.min_count
  · simp [Sentinel.drop, h, hc, spawn_in_pool]
  · simp [Sentinel.drop, h, hc, spawn_in_pool]

/-- C3 at the concrete state `sC1`: the respawn trigger fires exactly
there and appends one replacement with the same configuration. -/
theorem sentinel_respawn_iff_witness :
    ((Sentinel.drop true { cfg := cfg0, active := true } sC1).spawnLog ≠ sC1.spawnLog ↔
      (sC1.active_count = 1 ∧ sC1.spawned_count ≤ sC1.min_count)) ∧
    ((sC1.active_count = 1 ∧ sC1.spawned_count ≤ sC1.min_count) →
      (Sentinel.drop true { cfg := cfg0, active := true } sC1).spawnLog = sC1.spawnLog ++ [cfg0] ∧
      (Sentinel.drop true { cfg := cfg0, active := true } sC1).spawned_count = sC1.spawned_count + 1) :=
  sentinel_respawn_iff { cfg := cfg0, active := true } sC1 rfl

/-- C2: the claim says every reachable pool state satisfies
`min ≤ max`. Counterexample: construct a fixed pool of four
(`new_pool(4,4)` yields `sInit4` with `min = max = 4`), then
`set_num_threads(1)`: the resize only asserts `1 ≤ newMax`, never checks
it against `min_count`, and leaves `min_count` at 4 while `max_count`
becomes 1 — a reachable state with `min > max`. -/
theorem min_le_max_violated_cex :
    Reachable cfg0 sShrunk ∧ ¬ sShrunk.min_count ≤ sShrunk.max_count :=
  ⟨Reachable.resize sInit4 1 sShrunk (Reachable.init 4 4 sInit4 rfl) rfl,
   by decide⟩

/-- C2 (amended): `min ≤ max` is enforced at construction
(`new_pool` only succeeds with `min = initial ≤ maximum = max`), and
`execute` leaves both bounds unchanged; but `set_num_threads` does not
preserve it — it never touches `min_count`, so after a successful resize
`min ≤ max` holds exactly when the requested new maximum is at least the
pool's `min_count`. -/
theorem min_le_max_amended (cfg : WorkerCfg) (nt ni n : Nat)
    (s sE sR : PoolState) (q qE : List Job) (j : Job) :
    (new_pool cfg nt ni = Except.ok s → s.min_count ≤ s.max_count) ∧
    (execute cfg true s q j = some (sE, qE) →
      sE.min_count = s.min_count ∧ sE.max_count = s.max_count) ∧
    (set_num_threads cfg n s = Except.ok sR →
      (sR.min_count ≤ sR.max_count ↔ s.min_count ≤ n)) := by
  refine ⟨?_, ?_, ?_⟩
  · intro hok
    by_cases hc : 1 ≤ nt ∧ 1 ≤ ni ∧ ni ≤ nt
    · rw [new_pool_eq cfg nt ni hc.1 hc.2.1 hc.2.2] at hok
      simp only [Except.ok.injEq] at hok
      subst hok
      simpa using hc.2.2
    · unfold new_pool at hok
      rw [if_neg hc] at hok
      cases hok
  · intro hok
    rw [execute_eq] at hok
    simp only [Option.some.injEq, Prod.mk.injEq] at hok
    obtain ⟨rfl, rfl⟩ := hok
    by_cases hs : s.spawned_count < s.max_count <;> simp [hs]
  · intro hok
    by_cases hn : 1 ≤ n
    · rw [set_num_threads_eq cfg n s hn] at hok
      simp only [Except.ok.injEq] at hok
      subst hok
      simp
    · unfold set_num_threads at hok
      rw [if_neg hn] at hok
      cases hok

/-- C2 (amended) at concrete inputs: the freshly constructed `sInit4`
satisfies the bound, and resizing it to 1 satisfies it exactly when
`4 ≤ 1` — i.e. it does not. -/
theorem min_le_max_amended_witness :
    (sInit4.min_count ≤ sInit4.max_count) ∧
    (sShrunk.min_count ≤ sShrunk.max_count ↔ sInit4.min_count ≤ 1) :=
  ⟨(min_le_max_amended cfg0 4 4 1 sInit4 sInit4 sShrunk [] [] j0).1 rfl,
   (min_le_max_amended cfg0 4 4 1 sInit4 sInit4 sShrunk [] [] j0).2.2 rfl⟩

/-- C4: when a worker that passed the capacity check finishes a job that
returned normally (`active` went up by one and back down), it leaves the
run-loop — through the epilogue that decrements `spawned_count` and
disarms its guard — if and only if the loaded `min ≠ max` and the
post-decrement `active_count` is 0 and `spawned_count > min`; otherwise
it returns to the top-of-loop capacity check with the counters restored.
Consequently a fixed-size pool (`min = max`) never takes this
opportunistic-shrink branch. -/
theorem worker_post_job_branch (cfg : WorkerCfg) (s : PoolState) (j : Job)
    (rest : List Job) (closed : Bool)
    (hcap : s.active_count < s.max_count) (hok : j.panics = false) :
    ((s.min_count ≠ s.max_count ∧ s.active_count = 0 ∧ s.min_count < s.spawned_count) →
      workerIteration cfg s (j :: rest) closed =
        IterOutcome.exited { cfg := cfg, active := false }
          { s with spawned_count := s.spawned_count - 1 } rest) ∧
    (¬ (s.min_count ≠ s.max_count ∧ s.active_count = 0 ∧ s.min_count < s.spawned_count) →
      workerIteration cfg s (j :: rest) closed = IterOutcome.continued s rest) ∧
    (s.min_count = s.max_count →
      workerIteration cfg s (j :: rest) closed = IterOutcome.continued s rest) := by
  refine ⟨?_, ?_, ?_⟩
  · intro hc
    have hmax : ¬ s.max_count = 0 := by omega
    simp [workerIteration, hcap, hok, hc, hmax, workerExit, Sentinel.cancel, Sentinel.drop]
  · intro hc
    simp [workerIteration, hcap, hok, hc]
  · intro heq
    have hc : ¬ (s.min_count ≠ s.max_count ∧ s.active_count = 0 ∧
        s.min_count < s.spawned_count) := by
      intro h
      exact h.1 heq
    simp [workerIteration, hcap, hok, hc]

/-- C4 at concrete states: on the idle dynamic state `sDyn`
(`min = 1 < spawned = 2`, `active = 0`) the worker exits after the job,
and on the fixed state `sFix` (`min = max = 2`) it continues. -/
theorem worker_post_job_branch_witness :
    (workerIteration cfg0 sDyn [j0] false =
      IterOutcome.exited { cfg := cfg0, active := false }
        { sDyn with spawned_count := sDyn.spawned_count - 1 } []) ∧
    (workerIteration cfg0 sFix [j0] false = IterOutcome.continued sFix []) :=
  ⟨(worker_post_job_branch cfg0 sDyn j0 [] false (by decide) rfl).1 (by decide),
   (worker_post_job_branch cfg0 sFix j0 [] false (by decide) rfl).2.2 rfl⟩

/-- C5: `set_num_threads(newMax)` with `newMax ≥ 1` swaps `max_count` to
the new value; when the new value exceeds the old it spawns exactly
`newMax - oldMax` workers, each incrementing `spawned_count`; otherwise
it spawns none and changes nothing else (no worker is killed directly);
`min_count`, `active_count` and `panic_count` are unchanged in every
case; with `newMax = 0` it fails with `InvalidConfiguration`. -/
theorem set_num_threads_spec (cfg : WorkerCfg) (n : Nat) (s : PoolState) :
    (1 ≤ n →
      set_num_threads cfg n s =
        Except.ok { s with max_count := n,
                           spawned_count := s.spawned_count + (n - s.max_count),
                           spawnLog := s.spawnLog ++ List.replicate (n - s.max_count) cfg }) ∧
    (n = 0 →
      set_num_threads cfg n s = Except.error PoolError.invalidConfiguration) := by
  constructor
  · intro hn
    exact set_num_threads_eq cfg n s hn
  · intro hn
    subst hn
    simp [set_num_threads]

/-- C5 at concrete inputs: resizing the fixed four-pool up to 5 spawns
exactly one worker, and resizing to 0 is rejected. -/
theorem set_num_threads_spec_witness :
    (set_num_threads cfg0 5 sInit4 =
      Except.ok { sInit4 with max_count := 5,
                              spawned_count := sInit4.spawned_count + (5 - sInit4.max_count),
                              spawnLog := sInit4.spawnLog ++ List.replicate (5 - sInit4.max_count) cfg0 }) ∧
    (set_num_threads cfg0 0 sInit4 = Except.error PoolError.invalidConfiguration) :=
  ⟨(set_num_threads_spec cfg0 5 sInit4).1 (by decide),
   (set_num_threads_spec cfg0 0 sInit4).2 rfl⟩

/-- C6: with the channel's receive side alive — which it is whenever any
pool handle is alive, since the handle owns `job_receiver` — `execute`
never fails: it spawns exactly one additional worker (incrementing
`spawned_count`) precisely when `spawned_count < max_count` at the time
of the call, and then enqueues the job at the tail of the queue. -/
theorem execute_spec (cfg : WorkerCfg) (alive : Bool) (s : PoolState)
    (q : List Job) (j : Job) (halive : alive = true) :
    execute cfg alive s q j =
      some (if s.spawned_count < s.max_count then
              { s with spawned_count := s.spawned_count + 1,
                       spawnLog := s.spawnLog ++ [cfg] }
            else s, q ++ [j]) := by
  subst halive
  exact execute_eq cfg s q j

/-- C6 at a concrete input: submitting to the saturated fixed four-pool
(`spawned = max = 4`) enqueues without spawning. -/
theorem execute_spec_witness :
    execute cfg0 true sInit4 [] j0 =
      some (if sInit4.spawned_count < sInit4.max_count then
              { sInit4 with spawned_count := sInit4.spawned_count + 1,
                            spawnLog := sInit4.spawnLog ++ [cfg0] }
            else sInit4, [] ++ [j0]) :=
  execute_spec cfg0 true sInit4 [] j0 rfl

/-- C7: construction fails with `InvalidConfiguration` exactly when the
fixed count is 0, or — for a dynamic pool — the maximum is 0, the
initial count is 0, or the initial count exceeds the maximum; on success
the pool starts with `min = initial`, `max = maximum`, exactly `initial`
workers spawned immediately (`spawned_count = initial`), and
`active_count = panic_count = 0`. -/
theorem new_pool_spec (cfg : WorkerCfg) (nt ni n : Nat) :
    (new cfg n = Except.error PoolError.invalidConfiguration ↔ n = 0) ∧
    (new_dynamic cfg nt ni = Except.error PoolError.invalidConfiguration ↔
      (nt = 0 ∨ ni = 0 ∨ nt < ni)) ∧
    (1 ≤ nt → 1 ≤ ni → ni ≤ nt →
      new_pool cfg nt ni =
        Except.ok { active_count := 0, spawned_count := ni, min_count := ni,
                    max_count := nt, panic_count := 0,
                    spawnLog := List.replicate ni cfg }) := by
  refine ⟨?_, ?_, fun h1 h2 h3 => new_pool_eq cfg nt ni h1 h2 h3⟩
  · unfold new new_pool
    by_cases hc : 1 ≤ n ∧ 1 ≤ n ∧ n ≤ n
    · rw [if_pos hc]
      simp
      omega
    · rw [if_neg hc]
      simp
      omega
  · unfold new_dynamic new_pool
    by_cases hc : 1 ≤ nt ∧ 1 ≤ ni ∧ ni ≤ nt
    · rw [if_pos hc]
      simp
      omega
    · rw [if_neg hc]
      simp
      omega

/-- C7 at concrete inputs: `new(0)` is rejected, `new_dynamic(3, 4)` is
rejected, and `new_pool(3, 2)` succeeds with two workers spawned. -/
theorem new_pool_spec_witness :
    (new cfg0 0 = Except.error PoolError.invalidConfiguration) ∧
    (new_dynamic cfg0 3 4 = Except.error PoolError.invalidConfiguration) ∧
    new_pool cfg0 3 2 =
      Except.ok { active_count := 0, spawned_count := 2, min_count := 2,
                  max_count := 3, panic_count := 0,
                  spawnLog := List.replicate 2 cfg0 } :=
  ⟨(new_pool_spec cfg0 3 4 0).1.mpr rfl,
   (new_pool_spec cfg0 3 4 0).2.1.mpr (by decide),
   (new_pool_spec cfg0 3 2 0).2.2 (by decide) (by decide) (by decide)⟩

/-- C8: at the top of a run-loop iteration, a worker whose loaded
`active_count` is at or above the loaded `max_count` takes the exit path
without dequeuing: the queue is untouched, `spawned_count` is
decremented, the guard is disarmed, and every other counter is
unchanged. -/
theorem worker_capacity_exit (cfg : WorkerCfg) (s : PoolState) (q : List Job)
    (closed : Bool) (h : s.max_count ≤ s.active_count) :
    workerIteration cfg s q closed =
      IterOutcome.exited { cfg := cfg, active := false }
        { s with spawned_count := s.spawned_count - 1 } q := by
  have hn : ¬ s.active_count < s.max_count := Nat.not_lt.mpr h
  simp [workerIteration, hn, workerExit, Sentinel.cancel, Sentinel.drop]

/-- C8 at the concrete state `sBusy` (`active = max = 2`): the worker
exits with a non-empty queue left untouched. -/
theorem worker_capacity_exit_witness :
    workerIteration cfg0 sBusy [j0] false =
      IterOutcome.exited { cfg := cfg0, active := false }
        { sBusy with spawned_count := sBusy.spawned_count - 1 } [j0] :=
  worker_capacity_exit cfg0 sBusy [j0] false (by decide)

/-- How `Sentinel::drop` treats `panic_count`: incremented by exactly one
when the guard is still armed and the thread is panicking, untouched
otherwise. -/
theorem sentinel_drop_panic_count (p : Bool) (snt : Sentinel) (s : PoolState) :
    (Sentinel.drop p snt s).panic_count =
      if snt.active ∧ p then s.panic_count + 1 else s.panic_count := by
  cases p <;> cases hsnt : snt.active <;>
    by_cases hc : s.active_count = 1 ∧ s.spawned_count ≤ s.min_count <;>
      simp [Sentinel.drop, hsnt, hc, spawn_in_pool]

/-- C10: `panic_count` is monotone — construction initialises it to 0,
`execute` and `set_num_threads` leave it unchanged, the query is a pure
read, and a run-loop iteration changes it only on the abnormal
(panicked) outcome, by exactly one. -/
theorem panic_count_monotone (cfg : WorkerCfg) (nt ni n : Nat)
    (s s0 sE sR : PoolState) (q qE : List Job) (j : Job) (closed : Bool) :
    (new_pool cfg nt ni = Except.ok s0 → s0.panic_count = 0) ∧
    (execute cfg true s q j = some (sE, qE) → sE.panic_count = s.panic_count) ∧
    (set_num_threads cfg n s = Except.ok sR → sR.panic_count = s.panic_count) ∧
    panic_count s = s.panic_count ∧
    (match workerIteration cfg s q closed with
     | IterOutcome.continued s' _ => s'.panic_count = s.panic_count
     | IterOutcome.exited _ s' _ => s'.panic_count = s.panic_count
     | IterOutcome.panicked s' _ => s'.panic_count = s.panic_count + 1
     | IterOutcome.blocked => True) := by
  refine ⟨?_, ?_, ?_, rfl, ?_⟩
  · intro hok
    by_cases hc : 1 ≤ nt ∧ 1 ≤ ni ∧ ni ≤ nt
    · rw [new_pool_eq cfg nt ni hc.1 hc.2.1 hc.2.2] at hok
      simp only [Except.ok.injEq] at hok
      subst hok
      rfl
    · unfold new_pool at hok
      rw [if_neg hc] at hok
      cases hok
  · intro hok
    rw [execute_eq] at hok
    simp only [Option.some.injEq, Prod.mk.injEq] at hok
    obtain ⟨rfl, rfl⟩ := hok
    by_cases hs : s.spawned_count < s.max_count <;> simp [hs]
  · intro hok
    by_cases hn : 1 ≤ n
    · rw [set_num_threads_eq cfg n s hn] at hok
      simp only [Except.ok.injEq] at hok
      subst hok
      rfl
    · unfold set_num_threads at hok
      rw [if_neg hn] at hok
      cases hok
  · by_cases hcap : s.active_count < s.max_count
    · cases q with
      | nil =>
          cases closed with
          | false => simp [workerIteration, hcap]
          | true => simp [workerIteration, hcap, workerExit, Sentinel.cancel, Sentinel.drop]
      | cons j' rest =>
          by_cases hp : j'.panics = true
          · simp [workerIteration, hcap, hp, sentinel_drop_panic_count]
          · by_cases hsh : s.min_count ≠ s.max_count ∧ s.active_count = 0 ∧
                s.min_count < s.spawned_count
            · have hmax : 0 < s.max_count := by omega
              simp [workerIteration, hcap, hp, hsh, hmax, workerExit,
                Sentinel.cancel, Sentinel.drop]
            · simp [workerIteration, hcap, hp, hsh]
    · simp [workerIteration, hcap, workerExit, Sentinel.cancel, Sentinel.drop]

/-- C10 at concrete inputs: a fresh pool has `panic_count = 0` and a
resize leaves it unchanged. -/
theorem panic_count_monotone_witness :
    sInit4.panic_count = 0 ∧ sShrunk.panic_count = sInit4.panic_count :=
  ⟨(panic_count_monotone cfg0 4 4 1 sInit4 sInit4 sInit4 sShrunk [] [] j0 false).1 rfl,
   (panic_count_monotone cfg0 4 4 1 sInit4 sInit4 sInit4 sShrunk [] [] j0 false).2.2.1 rfl⟩

end Threadpool
